import Mathlib

/-!
Verification development for the episodic MBRL client
(src/scripts/episodic_mbrl_client.py).

The embedding models the per-task scheduling and lifecycle engine: the
recorded task-state mapping entry for one task, the module-global state
variable, the remaining random-trial counter, the optimizer objective
cache, the experience store policy-parameter history, and the task queue.
For a single configured task the threaded execution is deterministic and
sequential, because the main loop blocks on the queue until the
optimization job performs its final put; the step function below follows
that sequencing.
-/

/-- Events emitted by the scheduler loop and the optimization strategies,
newest first.  robot_access marks env.init_params and apply_controller
calls (lines 296 and 322); write_task_state marks an assignment to the
task_state mapping; put_queue marks task_queue.put. -/
inductive Ev where
  | robot_access
  | write_task_state (s : String)
  | append_episode
  | save_exp
  | train_dyn
  | compile_objective
  | run_minimize
  | set_pol_params
  | put_queue
  | start_job
deriving DecidableEq, Repr

/-- State of one task as seen by the client script: the recorded
task_state entry, the module-global state variable (line 284 and 306),
the remaining random trials, whether optimizer.loss_fn is set (line 86),
the per-episode flag whether the appended policy parameters were
non-empty (exp.policy_parameters, line 145 and 327), the current policy
parameter value (abstracted to a number), the configured n_opt, whether
the task is in the queue, the history of values written to the
task_state mapping (newest first), the event log (newest first), and
instrumentation counters for objective compilations and optimizer
runs. -/
structure TaskRec where
  task_state : String
  state : String
  initial_random_trials : Nat
  loss_fn : Bool
  policy_parameters : List Bool
  pol_params : Nat
  n_opt : Nat
  queued : Bool
  stateHist : List String
  events : List Ev
  compile_count : Nat
  minimize_count : Nat
deriving DecidableEq, Repr

/-- Assignment task_state[task_name] := s, recorded in the history and
event log. -/
def set_task_state (t : TaskRec) (s : String) : TaskRec :=
  { t with task_state := s,
           stateHist := s :: t.stateHist,
           events := Ev.write_task_state s :: t.events }

/-- Line 145: n_polopt_iters = len([p for p in exp.policy_parameters if
len(p) > 0]).  Each stored entry records whether that episode's saved
policy parameters were non-empty. -/
def n_polopt_iters (t : TaskRec) : Nat :=
  (t.policy_parameters.filter (fun p => p)).length

/-- Lines 144 to 149 of mc_pilco_polopt: mark the task done when the
completed-iteration count has reached n_opt, then unconditionally put
the task back on the queue. -/
def polopt_finish (t : TaskRec) : TaskRec :=
  let t2 := if t.n_opt ≤ n_polopt_iters t then set_task_state t "done" else t
  { t2 with queued := true, events := Ev.put_queue :: t2.events }

/-- Lines 65 to 151: one invocation of the local optimization strategy.
If the global state variable is not init, it trains the dynamics model,
compiles the optimization objective when optimizer.loss_fn is unset
(writing compile_polopt first, line 87), writes update_polopt (line
123), runs the optimizer (updating the policy parameters in place), and
writes ready (line 142); in every case it then runs the done check and
puts the task back on the queue. -/
def mc_pilco_polopt (t : TaskRec) : TaskRec :=
  let t1 :=
    if t.state = "init" then t
    else
      let ta := { t with events := Ev.train_dyn :: t.events }
      let tb :=
        if ta.loss_fn then ta
        else
          let tc := set_task_state ta "compile_polopt"
          { tc with loss_fn := true,
                    compile_count := tc.compile_count + 1,
                    events := Ev.compile_objective :: tc.events }
      let td := set_task_state tb "update_polopt"
      let te := { td with pol_params := td.pol_params + 1,
                          minimize_count := td.minimize_count + 1,
                          events := Ev.run_minimize :: td.events }
      set_task_state te "ready"
  polopt_finish t1

/-- Lines 299 to 312: policy selection.  When the global state variable
is init and random trials remain, the exploration policy is chosen, the
trial counter is decremented, and when it reaches zero the global state
variable (not the recorded task_state entry) is set to ready.  Returns
the updated task and whether the learned policy acts (the learned policy
has a params attribute, the RandPolicy does not, line 327). -/
def select_policy (t : TaskRec) : TaskRec × Bool :=
  if t.state = "init" ∧ 0 < t.initial_random_trials then
    let ta := { t with initial_random_trials := t.initial_random_trials - 1 }
    let tb := if ta.initial_random_trials < 1 then { ta with state := "ready" } else ta
    (tb, false)
  else (t, true)

/-- Lines 322 to 333: run the episode on the robot, append it together
with the acting policy's parameters (empty for the exploration policy)
to the experience store, and save. -/
def collect_and_append (t : TaskRec) (learned : Bool) : TaskRec :=
  { t with policy_parameters := t.policy_parameters ++ [learned],
           events := Ev.save_exp :: Ev.append_episode :: Ev.robot_access :: t.events }

/-- Lines 276 to 339: one iteration of the scheduler loop for a task
configured with the local optimization strategy, with the optimization
job sequenced after the loop body (for a single task the blocking
dequeue enforces exactly this order, since only the job's final put can
release it).  Dequeue, read the recorded state into the global state
variable (line 284), drop the task if done (line 286), otherwise
reconfigure the robot, select the policy, collect and append the
episode, and run the optimization job. -/
def schedStep (t : TaskRec) : TaskRec :=
  let t1 := { t with queued := false, state := t.task_state }
  if t1.state = "done" then t1
  else
    let t2 := { t1 with events := Ev.robot_access :: t1.events }
    let sel := select_policy t2
    let t4 := collect_and_append sel.1 sel.2
    let t5 := { t4 with events := Ev.start_job :: t4.events }
    mc_pilco_polopt t5

/-- One scheduler cycle: the loop body runs only when the task is in the
queue; afterwards the dequeue blocks. -/
def step (t : TaskRec) : TaskRec :=
  if t.queued then schedStep t else t

/-- Iterated scheduler cycles. -/
def run (t : TaskRec) : Nat → TaskRec
  | 0 => t
  | n + 1 => step (run t n)

/-- A freshly registered task (lines 248 to 269): recorded state init,
enqueued once, no compiled objective, empty experience. -/
def initTask (trials nopt : Nat) : TaskRec :=
  { task_state := "init", state := "init",
    initial_random_trials := trials, loss_fn := false,
    policy_parameters := [], pol_params := 0, n_opt := nopt,
    queued := true, stateHist := ["init"], events := [],
    compile_count := 0, minimize_count := 0 }

/-- Which external call of a cycle raises an exception: none, the
dynamics-model training (line 81), the objective construction (line
106), or the optimizer run (line 140). -/
inductive FailPoint where
  | noFail
  | train_dyn
  | get_loss
  | minimize
deriving DecidableEq, Repr

/-- Task state carried by an Except result, whether the cycle succeeded
or the exception left the thread. -/
def resTask : Except TaskRec TaskRec → TaskRec
  | Except.ok t => t
  | Except.error t => t

/-- Whether an Except result is the error case. -/
def isErr : Except TaskRec TaskRec → Bool
  | Except.ok _ => false
  | Except.error _ => true

/-- Lines 123 to 142 with failure injection: write update_polopt, run
the optimizer (which may raise, leaving the thread with the intermediate
recorded state), write ready. -/
def polopt_update_phase (t : TaskRec) (fp : FailPoint) : Except TaskRec TaskRec :=
  let td := set_task_state t "update_polopt"
  if fp = FailPoint.minimize then Except.error td
  else
    let te := { td with pol_params := td.pol_params + 1,
                        minimize_count := td.minimize_count + 1,
                        events := Ev.run_minimize :: td.events }
    Except.ok (set_task_state te "ready")

/-- Lines 65 to 151 with failure injection: an exception in
train_dynamics, in the objective construction, or in the optimizer run
kills the thread at that point; the mutations already performed (in
particular the intermediate task_state writes) remain, and the final
queue put is never reached. -/
def mc_pilco_polopt_f (t : TaskRec) (fp : FailPoint) : Except TaskRec TaskRec :=
  if t.state = "init" then Except.ok (polopt_finish t)
  else if fp = FailPoint.train_dyn then Except.error t
  else
    let ta := { t with events := Ev.train_dyn :: t.events }
    if ta.loss_fn then
      match polopt_update_phase ta fp with
      | Except.error u => Except.error u
      | Except.ok u => Except.ok (polopt_finish u)
    else
      let tc := set_task_state ta "compile_polopt"
      if fp = FailPoint.get_loss then Except.error tc
      else
        let tc2 := { tc with loss_fn := true,
                             compile_count := tc.compile_count + 1,
                             events := Ev.compile_objective :: tc.events }
        match polopt_update_phase tc2 fp with
        | Except.error u => Except.error u
        | Except.ok u => Except.ok (polopt_finish u)

/-- Lines 276 to 339 with failure injection: episode_ok says whether
apply_controller (line 322) completes; when it raises, the exception
propagates out of the loop before any experience append or task_state
write happens for this cycle, and the task is not re-enqueued. -/
def schedStep_f (t : TaskRec) (episode_ok : Bool) (fp : FailPoint) :
    Except TaskRec TaskRec :=
  let t1 := { t with queued := false, state := t.task_state }
  if t1.state = "done" then Except.ok t1
  else
    let t2 := { t1 with events := Ev.robot_access :: t1.events }
    let sel := select_policy t2
    if episode_ok then
      let t4 := collect_and_append sel.1 sel.2
      let t5 := { t4 with events := Ev.start_job :: t4.events }
      mc_pilco_polopt_f t5 fp
    else
      Except.error { sel.1 with events := Ev.robot_access :: sel.1.events }

/-- Lines 154 to 189: the remote optimization strategy.  server_has
says whether GET get_task_init_status finds the task (if not, the task
spec is uploaded, which changes only server state); resp is the body of
the POST optimize response, where none stands for a body that
pickle.loads cannot parse.  On a parse failure the exception kills the
thread before set_params and before the queue put; on success the
returned parameters are installed and the task is re-enqueued.  The
recorded task_state entry is never touched.  Returns the task and
whether the server has the task afterwards. -/
def http_polopt (t : TaskRec) (_server_has : Bool) (resp : Option Nat) :
    TaskRec × Bool :=
  match resp with
  | Option.none => (t, true)
  | Option.some ps =>
      let t1 := { t with pol_params := ps,
                         events := Ev.set_pol_params :: t.events }
      ({ t1 with queued := true, events := Ev.put_queue :: t1.events }, true)

/-- Line 272: the scheduler loop guard, while not all([st == 'done' for
st in task_state]).  Iterating the task_state dict yields its keys, the
task names, so the comparison is between each task name and the string
done. -/
def scheduler_loop_guard (task_state : List (String × String)) : Bool :=
  ! ((task_state.map Prod.fst).all (fun st => st == "done"))

/-- Every recorded state in the name-to-state mapping equals done; this
is the condition the specification gives for loop exit. -/
def all_tasks_done (task_state : List (String × String)) : Bool :=
  (task_state.map Prod.snd).all (fun st => st == "done")

/-- Python os.path.dirname for POSIX paths: everything up to and
including the last slash, then trailing slashes stripped unless the
result is all slashes. -/
def os_path_dirname (p : String) : String :=
  let cs := p.toList
  let head := ((cs.reverse).dropWhile (fun c => c ≠ '/')).reverse
  let stripped :=
    if head ≠ [] ∧ ¬ (head.all (fun c => c = '/')) then
      ((head.reverse).dropWhile (fun c => c = '/')).reverse
    else head
  String.mk stripped

/-- Lines 228 to 230: the name the existing output directory is renamed
to on a fresh startup, os.path.dirname(output_directory) + an underscore
+ the ctime of the directory. -/
def rename_target (output_directory : String) (ctime : String) : String :=
  os_path_dirname output_directory ++ "_" ++ ctime

/-- Lines 221 to 234: output-directory initialization over an abstract
file system, a list of directory names paired with an abstract content
id (0 stands for empty).  mkdir raises when the directory exists; on a
fresh (non-resuming) startup the existing directory is renamed to
rename_target and the output directory is recreated empty; with
load_experience the exception is swallowed.  Returns the resulting file
system and the rename destination, if any. -/
def init_output_dir (fs : List (String × Nat)) (out : String)
    (load_experience : Bool) (ctime : String) :
    List (String × Nat) × Option String :=
  match fs.lookup out with
  | Option.none => ((out, 0) :: fs, Option.none)
  | Option.some c =>
      if load_experience then (fs, Option.none)
      else
        let tgt := rename_target out ctime
        ((out, 0) :: (tgt, c) :: fs.filter (fun p => p.1 ≠ out), Option.some tgt)

/-- Names bound in the module scope of the script by the time the
scheduler loop runs: the module-level function definitions, the imported
names, and every assignment target of the main block, including loop and
except targets.  The name task_id used at line 282 is not among them. -/
def main_scope_names : List String :=
  [ "numpy_code_constructor", "include_constructor", "default_config",
    "parse_config", "mc_pilco_polopt", "http_polopt",
    "argparse", "np", "os", "rospy", "threading", "yaml", "requests",
    "pickle", "OrderedDict", "partial", "Queue", "Empty", "ROSPlant",
    "apply_controller", "train_dynamics", "preprocess_angles",
    "ExperienceDataset", "mc_pilco", "RandPolicy", "utils",
    "parser", "args", "load_experience", "config", "output_directory",
    "e", "dir_time", "target_dir", "plant_params", "env", "tasks",
    "task_state", "polopt_threads", "task_name", "spec", "exp", "pol",
    "new_task_ready", "name", "state", "H", "preprocess", "experience",
    "states", "actions", "costs", "infos", "ts", "pol_params",
    "new_thread" ]

/-- Line 282 sits between the dequeue and the state examination: the
per-cycle log-file setup interpolates task_id, so the iteration proceeds
only when that name is bound in the enclosing scope; otherwise the
lookup raises NameError and nothing after it runs. -/
def scheduler_iteration (bound : List String) (t : TaskRec) :
    Except String TaskRec :=
  if bound.contains "task_id" then Except.ok (schedStep t)
  else Except.error "NameError"

/-- Transitions the recorded task_state entry actually performs, as
realized by the client: the first write out of init goes directly to the
compiling state (the loop never writes ready on trial exhaustion, it
only sets the shared state variable), the skip path can mark an init
task done, and otherwise the optimization job cycles through
update_polopt and ready until the done check fires. -/
def edgeOK : String → String → Bool
  | "init", "compile_polopt" => true
  | "init", "done" => true
  | "compile_polopt", "update_polopt" => true
  | "update_polopt", "ready" => true
  | "ready", "update_polopt" => true
  | "ready", "done" => true
  | _, _ => false

/-- Adjacent writes in a newest-first history respect edgeOK. -/
def chainOK : List String → Bool
  | [] => true
  | [_] => true
  | b :: a :: r => edgeOK a b && chainOK (a :: r)

/-- Between scheduler cycles the recorded state is init, ready or
done. -/
def goodState (s : String) : Bool :=
  s == "init" || s == "ready" || s == "done"

/-- Inductive invariant of the scheduler cycle: the recorded state is a
resting state, init implies the objective is not yet compiled, ready
implies it is, the write history is a chain along the realized edges
ending at the current recorded state, and the objective has been
compiled at most once (never, while the loss function is unset). -/
def SchedInv (t : TaskRec) : Prop :=
  goodState t.task_state = true ∧
  (t.task_state = "init" → t.loss_fn = false) ∧
  (t.task_state = "ready" → t.loss_fn = true) ∧
  chainOK t.stateHist = true ∧
  t.stateHist.head? = some t.task_state ∧
  (t.loss_fn = false → t.compile_count = 0) ∧
  t.compile_count ≤ 1

/-- Concrete task in the resting state ready with a compiled objective
and one recorded optimization iteration, with budget n_opt = 1. -/
def readyTask : TaskRec :=
  { task_state := "ready", state := "ready", initial_random_trials := 0,
    loss_fn := true, policy_parameters := [true], pol_params := 7,
    n_opt := 1, queued := false, stateHist := ["ready"], events := [],
    compile_count := 1, minimize_count := 1 }

/-- Concrete task awaiting its remote optimization result: dequeued (not
in the queue), two iterations still outstanding. -/
def pendingTask : TaskRec :=
  { task_state := "ready", state := "ready", initial_random_trials := 0,
    loss_fn := true, policy_parameters := [true], pol_params := 5,
    n_opt := 3, queued := false, stateHist := ["ready"], events := [],
    compile_count := 1, minimize_count := 1 }

theorem chainOK_cons (hist : List String) (a h : String)
    (hc : chainOK hist = true) (hh : hist.head? = some h)
    (he : edgeOK h a = true) : chainOK (a :: hist) = true := by
  cases hist with
  | nil => simp at hh
  | cons b r =>
      simp only [List.head?_cons, Option.some.injEq] at hh
      subst hh
      simp [chainOK, he, hc]

theorem goodState_cases (s : String) (h : goodState s = true) :
    s = "init" ∨ s = "ready" ∨ s = "done" := by
  simp only [goodState, Bool.or_eq_true, beq_iff_eq] at h
  tauto

theorem polopt_finish_inv (u : TaskRec)
    (hts : u.task_state = "init" ∨ u.task_state = "ready")
    (hinit : u.task_state = "init" → u.loss_fn = false)
    (hready : u.task_state = "ready" → u.loss_fn = true)
    (hchain : chainOK u.stateHist = true)
    (hhead : u.stateHist.head? = some u.task_state)
    (hc0 : u.loss_fn = false → u.compile_count = 0)
    (hc1 : u.compile_count ≤ 1) :
    SchedInv (polopt_finish u) := by
  unfold polopt_finish
  by_cases hd : u.n_opt ≤ n_polopt_iters u
  · simp only [if_pos hd, set_task_state]
    refine ⟨?_, ?_, ?_, ?_, ?_, ?_, ?_⟩ <;> dsimp only
    · decide
    · intro h; exact absurd h (by decide)
    · intro h; exact absurd h (by decide)
    · refine chainOK_cons u.stateHist "done" u.task_state hchain hhead ?_
      rcases hts with h | h <;> rw [h] <;> decide
    · rfl
    · exact hc0
    · exact hc1
  · simp only [if_neg hd]
    have hg : goodState u.task_state = true := by
      rcases hts with h | h <;> rw [h] <;> decide
    exact ⟨hg, hinit, hready, hchain, hhead, hc0, hc1⟩

theorem mc_pilco_polopt_inv (t : TaskRec)
    (hcase : (t.state = "init" ∧ (t.task_state = "init" ∨ t.task_state = "ready"))
           ∨ (¬ t.state = "init" ∧ t.task_state = "init" ∧ t.loss_fn = false)
           ∨ (¬ t.state = "init" ∧ t.task_state = "ready" ∧ t.loss_fn = true))
    (hinit : t.task_state = "init" → t.loss_fn = false)
    (hready : t.task_state = "ready" → t.loss_fn = true)
    (hchain : chainOK t.stateHist = true)
    (hhead : t.stateHist.head? = some t.task_state)
    (hc0 : t.loss_fn = false → t.compile_count = 0)
    (hc1 : t.compile_count ≤ 1) :
    SchedInv (mc_pilco_polopt t) := by
  rcases hcase with ⟨hs, hts⟩ | ⟨hs, hts, hloss⟩ | ⟨hs, hts, hloss⟩
  · -- the global state variable is init: the whole pass is skipped
    have he : mc_pilco_polopt t = polopt_finish t := by
      simp only [mc_pilco_polopt, if_pos hs]
    rw [he]
    exact polopt_finish_inv t hts hinit hready hchain hhead hc0 hc1
  · -- first training pass: objective compiled, then optimized
    have c1 : chainOK ("compile_polopt" :: t.stateHist) = true :=
      chainOK_cons _ _ _ hchain hhead (by rw [hts]; decide)
    have c2 : chainOK ("update_polopt" :: "compile_polopt" :: t.stateHist) = true :=
      chainOK_cons _ _ _ c1 rfl (by decide)
    have c3 : chainOK ("ready" :: "update_polopt" :: "compile_polopt" :: t.stateHist)
        = true := chainOK_cons _ _ _ c2 rfl (by decide)
    have hcc : t.compile_count = 0 := hc0 hloss
    simp only [mc_pilco_polopt, if_neg hs, set_task_state, hloss]
    simp only [Bool.false_eq_true, if_false]
    refine polopt_finish_inv _ (Or.inr rfl) ?_ ?_ c3 rfl ?_ ?_ <;> dsimp only
    · intro h; exact absurd h (by decide)
    · intro _; rfl
    · intro h; exact absurd h (by decide)
    · rw [hcc]
  · -- later training pass: compilation skipped
    have c2 : chainOK ("update_polopt" :: t.stateHist) = true :=
      chainOK_cons _ _ _ hchain hhead (by rw [hts]; decide)
    have c3 : chainOK ("ready" :: "update_polopt" :: t.stateHist) = true :=
      chainOK_cons _ _ _ c2 rfl (by decide)
    simp only [mc_pilco_polopt, if_neg hs, set_task_state, hloss]
    simp only [if_true]
    refine polopt_finish_inv _ (Or.inr rfl) ?_ ?_ c3 rfl ?_ hc1 <;> dsimp only
    · intro h; exact absurd h (by decide)
    · intro _; rfl
    · intro h; exact absurd h (by decide)

theorem schedStep_inv (t : TaskRec) (h : SchedInv t) : SchedInv (schedStep t) := by
  obtain ⟨hgood, hinit, hready, hchain, hhead, hc0, hc1⟩ := h
  have hloss0 := hinit
  rcases goodState_cases _ hgood with hts | hts | hts
  · -- recorded state init
    by_cases h4 : 0 < t.initial_random_trials
    · by_cases h5 : t.initial_random_trials - 1 < 1
      · simp [schedStep, select_policy, collect_and_append, hts, h4, h5]
        refine mc_pilco_polopt_inv _ ?_ ?_ ?_ ?_ ?_ ?_ ?_
        · refine Or.inr (Or.inl ⟨?_, ?_, ?_⟩)
          · exact (by decide : ¬ ("ready" : String) = "init")
          · exact rfl
          · exact hinit hts
        · intro _; exact hinit hts
        · intro hx
          have hx2 : ("init" : String) = "ready" := hx
          exact absurd hx2 (by decide)
        · exact hchain
        · exact hts ▸ hhead
        · exact hc0
        · exact hc1
      · simp [schedStep, select_policy, collect_and_append, hts, h4, h5]
        refine mc_pilco_polopt_inv _ ?_ ?_ ?_ ?_ ?_ ?_ ?_
        · exact Or.inl ⟨rfl, Or.inl rfl⟩
        · intro _; exact hinit hts
        · intro hx
          have hx2 : ("init" : String) = "ready" := hx
          exact absurd hx2 (by decide)
        · exact hchain
        · exact hts ▸ hhead
        · exact hc0
        · exact hc1
    · simp [schedStep, select_policy, collect_and_append, hts, h4]
      refine mc_pilco_polopt_inv _ ?_ ?_ ?_ ?_ ?_ ?_ ?_
      · exact Or.inl ⟨rfl, Or.inl rfl⟩
      · intro _; exact hinit hts
      · intro hx
        have hx2 : ("init" : String) = "ready" := hx
        exact absurd hx2 (by decide)
      · exact hchain
      · exact hts ▸ hhead
      · exact hc0
      · exact hc1
  · -- recorded state ready
    simp [schedStep, select_policy, collect_and_append, hts]
    refine mc_pilco_polopt_inv _ ?_ ?_ ?_ ?_ ?_ ?_ ?_
    · refine Or.inr (Or.inr ⟨?_, ?_, ?_⟩)
      · exact (by decide : ¬ ("ready" : String) = "init")
      · exact rfl
      · exact hready hts
    · intro hx
      have hx2 : ("ready" : String) = "init" := hx
      exact absurd hx2 (by decide)
    · intro _; exact hready hts
    · exact hchain
    · exact hts ▸ hhead
    · exact hc0
    · exact hc1
  · -- recorded state done: the task is dropped without any write
    have he : schedStep t = { t with queued := false, state := t.task_state } := by
      simp [schedStep, hts]
    rw [he]
    exact ⟨hgood, hinit, hready, hchain, hhead, hc0, hc1⟩

theorem step_inv (t : TaskRec) (h : SchedInv t) : SchedInv (step t) := by
  unfold step
  by_cases hq : t.queued
  · simp only [if_pos hq]; exact schedStep_inv t h
  · simp only [if_neg hq]; exact h

theorem run_inv (t : TaskRec) (h : SchedInv t) (n : Nat) : SchedInv (run t n) := by
  induction n with
  | zero => exact h
  | succ n ih => exact step_inv _ ih

theorem initTask_inv (trials nopt : Nat) : SchedInv (initTask trials nopt) := by
  refine ⟨rfl, fun _ => rfl, ?_, rfl, rfl, fun _ => rfl, Nat.zero_le 1⟩
  intro h
  have h2 : ("init" : String) = "ready" := h
  exact absurd h2 (by decide)

theorem polopt_finish_params (u : TaskRec) :
    (polopt_finish u).policy_parameters = u.policy_parameters := by
  unfold polopt_finish
  by_cases hd : u.n_opt ≤ n_polopt_iters u <;> simp [hd, set_task_state]

theorem polopt_finish_trials (u : TaskRec) :
    (polopt_finish u).initial_random_trials = u.initial_random_trials := by
  unfold polopt_finish
  by_cases hd : u.n_opt ≤ n_polopt_iters u <;> simp [hd, set_task_state]

theorem polopt_finish_compile (u : TaskRec) :
    (polopt_finish u).compile_count = u.compile_count := by
  unfold polopt_finish
  by_cases hd : u.n_opt ≤ n_polopt_iters u <;> simp [hd, set_task_state]

theorem polopt_finish_loss (u : TaskRec) :
    (polopt_finish u).loss_fn = u.loss_fn := by
  unfold polopt_finish
  by_cases hd : u.n_opt ≤ n_polopt_iters u <;> simp [hd, set_task_state]

theorem polopt_finish_task_state (u : TaskRec) :
    (polopt_finish u).task_state =
      if u.n_opt ≤ n_polopt_iters u then "done" else u.task_state := by
  unfold polopt_finish
  by_cases hd : u.n_opt ≤ n_polopt_iters u <;> simp [hd, set_task_state]

theorem mc_pilco_polopt_params (t : TaskRec) :
    (mc_pilco_polopt t).policy_parameters = t.policy_parameters := by
  by_cases hs : t.state = "init" <;> by_cases hl : t.loss_fn = true <;>
    simp [mc_pilco_polopt, set_task_state, hs, hl, polopt_finish_params]

theorem mc_pilco_polopt_trials (t : TaskRec) :
    (mc_pilco_polopt t).initial_random_trials = t.initial_random_trials := by
  by_cases hs : t.state = "init" <;> by_cases hl : t.loss_fn = true <;>
    simp [mc_pilco_polopt, set_task_state, hs, hl, polopt_finish_trials]

theorem mc_pilco_polopt_task_state (t : TaskRec) :
    (mc_pilco_polopt t).task_state =
      (if t.n_opt ≤ n_polopt_iters t then "done"
       else if t.state = "init" then t.task_state else "ready") := by
  by_cases hs : t.state = "init" <;> by_cases hl : t.loss_fn = true <;>
    simp [mc_pilco_polopt, set_task_state, polopt_finish_task_state,
          n_polopt_iters, hs, hl]

theorem done_step (t : TaskRec) (h : t.task_state = "done") :
    (step t).task_state = "done" ∧ (step t).stateHist = t.stateHist ∧
    (step t).queued = false := by
  unfold step
  by_cases hq : t.queued = true
  · have he : schedStep t = { t with queued := false, state := t.task_state } := by
      simp [schedStep, h]
    simp [if_pos hq, he, h]
  · have hq2 : t.queued = false := by simpa using hq
    simp [if_neg hq, h, hq2]

/-- C1 counterexample: in Scenario A (4 random trials, n_opt 1) the task
reaches the recorded state done after the fifth cycle, yet at that
moment it sits in the queue again, because mc_pilco_polopt puts the task
back unconditionally after marking it done; so a task IS placed back on
the queue once its state becomes done, contrary to the claim. -/
theorem c1_counterexample :
    (run (initTask 4 1) 5).task_state = "done" ∧
    (run (initTask 4 1) 5).queued = true := by decide

/-- C1 (amended): every write to the recorded task state moves along the
realized path init to compile_polopt (or directly to done), then
update_polopt, ready, update_polopt, ..., done; once the recorded state
is done, a further scheduler cycle performs no state write, collects
nothing, and removes the task from the queue without re-enqueuing it
(the one completion push performed by the job that marked the task done
is thereby discarded). -/
theorem c1_state_path_and_done_terminal (trials nopt n : Nat) :
    chainOK (run (initTask trials nopt) n).stateHist = true ∧
    ((run (initTask trials nopt) n).task_state = "done" →
      (step (run (initTask trials nopt) n)).task_state = "done" ∧
      (step (run (initTask trials nopt) n)).stateHist
        = (run (initTask trials nopt) n).stateHist ∧
      (step (run (initTask trials nopt) n)).queued = false) := by
  have hinv := run_inv _ (initTask_inv trials nopt) n
  exact ⟨hinv.2.2.2.1, fun hdone => done_step _ hdone⟩

/-- C1 witness: with no random trials and a zero budget the task is done
after one cycle, and the next cycle drops it from the queue with no
further transition. -/
theorem c1_state_path_witness :
    (run (initTask 0 0) 1).task_state = "done" ∧
    (step (run (initTask 0 0) 1)).task_state = "done" ∧
    (step (run (initTask 0 0) 1)).queued = false :=
  ⟨by decide,
   ((c1_state_path_and_done_terminal 0 0 1).2 (by decide)).1,
   ((c1_state_path_and_done_terminal 0 0 1).2 (by decide)).2.2⟩

/-- C2: the loop guard at line 272 iterates the task_state dict itself,
so it compares the task NAMES against done: with a single task named
cartpole whose state is done, the guard stays true (the loop keeps
running), and with a task named done whose state is init the guard is
false; the guard is therefore not equivalent to all recorded states
being done. -/
theorem c2_loop_guard_keys_bug :
    all_tasks_done [("cartpole", "done")] = true ∧
    scheduler_loop_guard [("cartpole", "done")] = true ∧
    all_tasks_done [("done", "init")] = false ∧
    scheduler_loop_guard [("done", "init")] = false := by decide

/-- C3 counterexample: under the remote strategy a task whose recorded
iteration count has reached n_opt is not marked done: http_polopt never
touches the recorded state. -/
theorem c3_counterexample :
    readyTask.n_opt ≤ n_polopt_iters readyTask ∧
    ¬ (http_polopt readyTask true (Option.some 9)).1.task_state = "done" := by
  decide

/-- C3 (amended): under the local strategy a task that is not already
done is marked done by an optimization pass exactly when the recorded
completed-iteration count has reached n_opt; the remote strategy never
changes the recorded state, so in particular it never marks the task
done, whatever the count. -/
theorem c3_done_iff_budget :
    (∀ t : TaskRec, ¬ t.task_state = "done" →
      ((mc_pilco_polopt t).task_state = "done" ↔ t.n_opt ≤ n_polopt_iters t)) ∧
    (∀ (t : TaskRec) (sh : Bool) (r : Option Nat),
      (http_polopt t sh r).1.task_state = t.task_state) := by
  constructor
  · intro t hne
    rw [mc_pilco_polopt_task_state]
    by_cases hd : t.n_opt ≤ n_polopt_iters t
    · simp [hd]
    · simp only [if_neg hd]
      by_cases hs : t.state = "init"
      · simp [hs, hd]
        exact hne
      · simp [hs, hd]
  · intro t sh r
    cases r <;> simp [http_polopt]

/-- C3 witness: the local strategy applied to a ready task with the
budget reached marks it done. -/
theorem c3_done_iff_budget_witness :
    ¬ readyTask.task_state = "done" ∧
    (mc_pilco_polopt readyTask).task_state = "done" :=
  ⟨by decide,
   (c3_done_iff_budget.1 readyTask (by decide)).mpr (by decide)⟩

/-- C4 counterexample: in Scenario A an optimization pass has already
run after the 4th dequeue (because trial exhaustion sets the shared
state variable to ready, which the 4th cycle's optimization job reads),
so the pass triggered by the 5th dequeue is the second one, not the only
one. -/
theorem c4_counterexample :
    (run (initTask 4 1) 4).minimize_count = 1 ∧
    (run (initTask 4 1) 5).minimize_count = 2 ∧
    (run (initTask 4 1) 5).task_state = "done" := by decide

/-- C4 (amended): a task dequeued in state init with random trials
remaining acts with the exploration policy (an episode with empty
policy parameters is appended) and the trial count is decremented; when
the count reaches zero the loop sets the shared state variable (not the
recorded state) to ready, so the job launched by that same 4th dequeue
already runs a full optimization pass.  In Scenario A the first 4
dequeues use the exploration policy, the 5th uses the learned policy;
two optimization passes run in total (after the 4th and 5th dequeues),
and after the second pass reports iteration count 1 the task is done. -/
theorem c4_random_trials_scenario :
    (∀ t : TaskRec, t.task_state = "init" → 0 < t.initial_random_trials →
      (schedStep t).policy_parameters = t.policy_parameters ++ [false] ∧
      (schedStep t).initial_random_trials = t.initial_random_trials - 1) ∧
    ((run (initTask 4 1) 4).policy_parameters = [false, false, false, false] ∧
     (run (initTask 4 1) 4).task_state = "ready" ∧
     (run (initTask 4 1) 4).minimize_count = 1) ∧
    ((run (initTask 4 1) 5).policy_parameters
        = [false, false, false, false, true] ∧
     (run (initTask 4 1) 5).minimize_count = 2 ∧
     n_polopt_iters (run (initTask 4 1) 5) = 1 ∧
     (run (initTask 4 1) 5).task_state = "done") := by
  refine ⟨?_, by decide, by decide⟩
  intro t h1 h2
  by_cases h5 : t.initial_random_trials - 1 < 1 <;>
    simp [schedStep, select_policy, collect_and_append, h1, h2, h5,
          mc_pilco_polopt_params, mc_pilco_polopt_trials]

/-- C4 witness: the first dequeue of a fresh Scenario A task appends an
exploration episode and decrements the trial count. -/
theorem c4_random_trials_witness :
    (initTask 4 1).task_state = "init" ∧
    0 < (initTask 4 1).initial_random_trials ∧
    (schedStep (initTask 4 1)).policy_parameters = [false] :=
  ⟨rfl, by decide,
   (c4_random_trials_scenario.1 (initTask 4 1) rfl (by decide)).1⟩

/-- C5 counterexample: when the optimize response cannot be parsed, the
policy parameters are indeed unchanged, but the task is NOT pushed back
onto the queue: pickle.loads raises before set_params and before the
final put, killing the optimization thread, so the dequeued task stays
out of the queue. -/
theorem c5_counterexample :
    (http_polopt pendingTask true Option.none).1.pol_params
      = pendingTask.pol_params ∧
    (http_polopt pendingTask true Option.none).1.queued = false := by decide

/-- C5 (amended): a malformed response to the optimize request leaves
the task record entirely unchanged: the policy parameters keep their
previous value and no completion push happens, so the task is dropped
rather than re-enqueued. -/
theorem c5_malformed_response_drops_task (t : TaskRec) (sh : Bool) :
    (http_polopt t sh Option.none).1 = t := rfl

/-- C6 counterexample: a failure of the optimizer run during the cycle
of a ready task leaves the recorded state at the intermediate value
update_polopt, not at the pre-failure state ready. -/
theorem c6_counterexample :
    readyTask.task_state = "ready" ∧
    isErr (schedStep_f readyTask true FailPoint.minimize) = true ∧
    (resTask (schedStep_f readyTask true FailPoint.minimize)).task_state
      = "update_polopt" := by decide

/-- C6 (amended): the optimization job never mutates the experience
store, so a failed optimization step leaves the store as it was when the
step began; a failed episode collection leaves both the recorded state
and the store unchanged and is not re-enqueued; but a failed optimizer
run leaves the recorded state at the intermediate value update_polopt
(and a failed objective construction leaves it at compile_polopt), not
at the pre-failure state. -/
theorem c6_failure_semantics :
    (∀ (t : TaskRec) (fp : FailPoint),
      (resTask (mc_pilco_polopt_f t fp)).policy_parameters
        = t.policy_parameters) ∧
    (∀ (t : TaskRec) (fp : FailPoint), ¬ t.task_state = "done" →
      isErr (schedStep_f t false fp) = true ∧
      (resTask (schedStep_f t false fp)).task_state = t.task_state ∧
      (resTask (schedStep_f t false fp)).policy_parameters
        = t.policy_parameters ∧
      (resTask (schedStep_f t false fp)).queued = false) ∧
    (∀ t : TaskRec, ¬ t.state = "init" →
      isErr (mc_pilco_polopt_f t FailPoint.minimize) = true ∧
      (resTask (mc_pilco_polopt_f t FailPoint.minimize)).task_state
        = "update_polopt" ∧
      (resTask (mc_pilco_polopt_f t FailPoint.minimize)).queued = t.queued) ∧
    (∀ t : TaskRec, ¬ t.state = "init" → t.loss_fn = false →
      isErr (mc_pilco_polopt_f t FailPoint.get_loss) = true ∧
      (resTask (mc_pilco_polopt_f t FailPoint.get_loss)).task_state
        = "compile_polopt" ∧
      (resTask (mc_pilco_polopt_f t FailPoint.get_loss)).queued = t.queued) := by
  refine ⟨?_, ?_, ?_, ?_⟩
  · intro t fp
    by_cases hs : t.state = "init"
    · simp [mc_pilco_polopt_f, hs, resTask, polopt_finish_params]
    · cases fp <;> by_cases hl : t.loss_fn = true <;>
        simp [mc_pilco_polopt_f, polopt_update_phase, set_task_state, hs, hl,
              resTask, polopt_finish_params]
  · intro t fp hne
    by_cases h4 : t.task_state = "init" ∧ 0 < t.initial_random_trials
    · by_cases h5 : t.initial_random_trials - 1 < 1 <;>
        simp [schedStep_f, select_policy, hne, h4, h5, resTask, isErr]
    · simp [schedStep_f, select_policy, hne, h4, resTask, isErr]
  · intro t hs
    by_cases hl : t.loss_fn = true <;>
      simp [mc_pilco_polopt_f, polopt_update_phase, set_task_state, hs, hl,
            resTask, isErr]
  · intro t hs hl
    simp [mc_pilco_polopt_f, polopt_update_phase, set_task_state, hs, hl,
          resTask, isErr]

/-- C6 witness: concrete instances of the failure cases: an episode
failure on a fresh task keeps the recorded state init, and the optimizer
failure on a ready task is an error. -/
theorem c6_failure_semantics_witness :
    ¬ (initTask 4 1).task_state = "done" ∧
    (resTask (schedStep_f (initTask 4 1) false FailPoint.noFail)).task_state
      = "init" ∧
    ¬ pendingTask.state = "init" ∧
    isErr (mc_pilco_polopt_f pendingTask FailPoint.minimize) = true :=
  ⟨by decide,
   (c6_failure_semantics.2.1 (initTask 4 1) FailPoint.noFail (by decide)).2.1,
   by decide,
   (c6_failure_semantics.2.2.1 pendingTask (by decide)).1⟩

/-- C7: across any number of scheduler cycles of a task the objective
compilation step runs at most once, and once the optimizer has a loss
function every later invocation of the local strategy skips compilation
(the compilation counter does not move and the cached objective
stays). -/
theorem c7_compile_at_most_once :
    (∀ trials nopt n : Nat,
      (run (initTask trials nopt) n).compile_count ≤ 1) ∧
    (∀ t : TaskRec, t.loss_fn = true →
      (mc_pilco_polopt t).compile_count = t.compile_count ∧
      (mc_pilco_polopt t).loss_fn = true) := by
  constructor
  · intro trials nopt n
    exact (run_inv _ (initTask_inv trials nopt) n).2.2.2.2.2.2
  · intro t hl
    by_cases hs : t.state = "init" <;>
      simp [mc_pilco_polopt, set_task_state, hs, hl,
            polopt_finish_compile, polopt_finish_loss]

/-- C7 witness: five cycles of Scenario A compile the objective exactly
once, and a pass over a task with a compiled objective does not compile
again. -/
theorem c7_compile_at_most_once_witness :
    (run (initTask 4 1) 5).compile_count ≤ 1 ∧
    readyTask.loss_fn = true ∧
    (mc_pilco_polopt readyTask).compile_count = readyTask.compile_count :=
  ⟨c7_compile_at_most_once.1 4 1 5, rfl,
   (c7_compile_at_most_once.2 readyTask rfl).1⟩

theorem mc_pilco_polopt_events_shape (t : TaskRec) :
    ∃ l : List Ev, (mc_pilco_polopt t).events = Ev.put_queue :: l ++ t.events ∧
      l.count Ev.put_queue = 0 ∧ l.count Ev.robot_access = 0 := by
  by_cases hs : t.state = "init" <;>
    by_cases hl : t.loss_fn = true <;>
    by_cases hd : t.n_opt ≤ (t.policy_parameters.filter (fun p => p)).length
  · exact ⟨[Ev.write_task_state "done"],
      by simp [mc_pilco_polopt, polopt_finish, set_task_state,
               n_polopt_iters, hs, hd], by decide, by decide⟩
  · exact ⟨[],
      by simp [mc_pilco_polopt, polopt_finish, set_task_state,
               n_polopt_iters, hs, hd], by decide, by decide⟩
  · exact ⟨[Ev.write_task_state "done"],
      by simp [mc_pilco_polopt, polopt_finish, set_task_state,
               n_polopt_iters, hs, hd], by decide, by decide⟩
  · exact ⟨[],
      by simp [mc_pilco_polopt, polopt_finish, set_task_state,
               n_polopt_iters, hs, hd], by decide, by decide⟩
  · exact ⟨[Ev.write_task_state "done", Ev.write_task_state "ready",
            Ev.run_minimize, Ev.write_task_state "update_polopt", Ev.train_dyn],
      by simp [mc_pilco_polopt, polopt_finish, set_task_state,
               n_polopt_iters, hs, hl, hd], by decide, by decide⟩
  · exact ⟨[Ev.write_task_state "ready", Ev.run_minimize,
            Ev.write_task_state "update_polopt", Ev.train_dyn],
      by simp [mc_pilco_polopt, polopt_finish, set_task_state,
               n_polopt_iters, hs, hl, hd], by decide, by decide⟩
  · exact ⟨[Ev.write_task_state "done", Ev.write_task_state "ready",
            Ev.run_minimize, Ev.write_task_state "update_polopt",
            Ev.compile_objective, Ev.write_task_state "compile_polopt",
            Ev.train_dyn],
      by simp [mc_pilco_polopt, polopt_finish, set_task_state,
               n_polopt_iters, hs, hl, hd], by decide, by decide⟩
  · exact ⟨[Ev.write_task_state "ready", Ev.run_minimize,
            Ev.write_task_state "update_polopt", Ev.compile_objective,
            Ev.write_task_state "compile_polopt", Ev.train_dyn],
      by simp [mc_pilco_polopt, polopt_finish, set_task_state,
               n_polopt_iters, hs, hl, hd], by decide, by decide⟩

/-- C8: structural single-writer discipline: neither optimization
strategy ever touches the robot (no robot access event is emitted by an
optimization job, so the robot is driven only by the scheduler's
synchronous episode step); the local strategy's completion push of the
task is its single enqueue and its very last action, with no robot
access or further push between the pass and the push; and the remote
strategy on success likewise performs the parameter installation and
then the push as its final two actions. -/
theorem c8_single_writer_structure :
    (∀ t : TaskRec,
      (mc_pilco_polopt t).events.count Ev.robot_access
        = t.events.count Ev.robot_access) ∧
    (∀ t : TaskRec, ∃ l : List Ev,
      (mc_pilco_polopt t).events = Ev.put_queue :: l ++ t.events ∧
      l.count Ev.put_queue = 0 ∧ l.count Ev.robot_access = 0) ∧
    (∀ (t : TaskRec) (sh : Bool) (r : Option Nat),
      (http_polopt t sh r).1.events.count Ev.robot_access
        = t.events.count Ev.robot_access) ∧
    (∀ (t : TaskRec) (sh : Bool) (p : Nat),
      (http_polopt t sh (Option.some p)).1.events
        = Ev.put_queue :: Ev.set_pol_params :: t.events) := by
  refine ⟨?_, mc_pilco_polopt_events_shape, ?_, ?_⟩
  · intro t
    obtain ⟨l, he, _, hr⟩ := mc_pilco_polopt_events_shape t
    rw [he]
    simp [List.count_cons, List.count_append, hr]
  · intro t sh r
    cases r <;> simp [http_polopt, List.count_cons]
  · intro t sh p
    rfl

/-- C9 counterexample: starting fresh with the default configured output
directory already present, the directory is renamed to the parent path
with the timestamp suffix (the slash and base name are dropped), not to
the output directory's own name with the suffix. -/
theorem c9_counterexample :
    (init_output_dir [("/data/robot_learning", 7)] "/data/robot_learning"
        false "12345").2 = Option.some "/data_12345" ∧
    ¬ (init_output_dir [("/data/robot_learning", 7)] "/data/robot_learning"
        false "12345").2
      = Option.some ("/data/robot_learning" ++ "_" ++ "12345") := by decide

/-- C9 (amended): on a fresh (non-resuming) startup with the output
directory already existing, the old directory is moved aside rather
than overwritten, but its new name is os.path.dirname of the configured
path followed by an underscore and the ctime, dropping the final path
component; the configured output directory is then recreated empty. -/
theorem c9_move_aside (fs : List (String × Nat)) (out ctime : String) (c : Nat)
    (h : fs.lookup out = some c) :
    (init_output_dir fs out false ctime).2
      = Option.some (os_path_dirname out ++ "_" ++ ctime) ∧
    (init_output_dir fs out false ctime).1.lookup out = some 0 ∧
    (rename_target out ctime, c) ∈ (init_output_dir fs out false ctime).1 := by
  simp [init_output_dir, h, rename_target]

/-- C9 witness: the default config's output directory, present with old
contents, is moved to the parent path plus suffix and recreated
empty. -/
theorem c9_move_aside_witness :
    ([("/data/robot_learning", 7)].lookup "/data/robot_learning"
        = some 7) ∧
    (init_output_dir [("/data/robot_learning", 7)] "/data/robot_learning"
        false "99").2
      = Option.some (os_path_dirname "/data/robot_learning" ++ "_" ++ "99") :=
  ⟨by decide,
   (c9_move_aside [("/data/robot_learning", 7)] "/data/robot_learning"
      "99" 7 (by decide)).1⟩

/-- C10: the name task_id is bound nowhere in the script's module scope,
and the per-cycle log-file setup between the dequeue and the state
examination evaluates it, so every iteration of the scheduler loop stops
with a NameError before the task state is read or any episode is
collected. -/
theorem c10_task_id_unbound :
    main_scope_names.contains "task_id" = false ∧
    (∀ t : TaskRec,
      scheduler_iteration main_scope_names t = Except.error "NameError") := by
  exact ⟨by decide, fun t => rfl⟩

